import Mathlib

/-!
Verification of the radmon agent (`bin/radmonAgent.py`) against its
natural-language specification.

The agent's core is shallowly embedded below:

* Python dictionaries holding the per-cycle radiation data are modelled as
  insertion-ordered association lists (`Dict`) whose values are a sum of the
  Python value shapes actually stored (`PyVal`).
* The process-wide globals (`failedUpdateCount`, `radmonOnline`,
  `remoteDeviceReset`) together with the on-disk snapshot file are gathered
  into an explicit `AgentState`; the snapshot file is modelled as
  `Option Dict` (`none` = file absent, `some d` = file holds the JSON
  serialization of `d`).
* External effects (the HTTP response, the snapshot-file write outcome, the
  rrdtool exit status) are passed in as explicit oracle parameters.
* Python machine floats are modelled as exact rationals (`ℚ`); where the
  agent formats or re-parses decimal strings this is modelled exactly, with
  round-half-even at the formatting step mirroring `'%.2f'` formatting.
-/

/-- A Python value stored in the agent's per-cycle data dictionary:
the agent stores strings, the integer epoch timestamp, and (transiently)
rationals standing for Python floats. -/
inductive PyVal where
  | str (s : String)
  | int (n : Int)
  | rat (q : ℚ)
deriving DecidableEq, Repr

/-- A Python `dict` with string keys, modelled as an insertion-ordered
association list (CPython dicts preserve insertion order; assigning to an
existing key updates it in place, a new key is appended). -/
abbrev Dict := List (String × PyVal)

/-- Python `d[key]` lookup (first entry with the key; entries are unique by
construction since dictionaries are only built through `dictInsert`). -/
def lookupV : Dict → String → Option PyVal
  | [], _ => none
  | (k, v) :: rest, key => if k = key then some v else lookupV rest key

/-- Lookup expecting a string value, as the agent does when it reads a field
it stored as text. -/
def lookupStr (d : Dict) (k : String) : Option String :=
  match lookupV d k with
  | some (PyVal.str s) => some s
  | _ => none

/-- Python `d[key] = value`: update in place if the key exists (keys are
unique in a Python dict, hence at most one occurrence), else append. -/
def dictInsert : Dict → String → PyVal → Dict
  | [], k, v => [(k, v)]
  | p :: rest, k, v =>
      if p.1 = k then (k, v) :: rest else p :: dictInsert rest k v

/-- Removal of every entry with the given key (dictionaries built through
`dictInsert` have unique keys, so this agrees with Python `pop`'s removal). -/
def dictRemove (d : Dict) (k : String) : Dict :=
  d.filter (fun p => p.1 != k)

/-- Python `d.pop(key)`: return the value and the dictionary without the key;
`none` models the `KeyError` taken when the key is absent. -/
def dictPop (d : Dict) (k : String) : Option (PyVal × Dict) :=
  match lookupV d k with
  | none => none
  | some v => some (v, dictRemove d k)

theorem lookupV_insert_self (d : Dict) (k : String) (v : PyVal) :
    lookupV (dictInsert d k v) k = some v := by
  induction d with
  | nil => simp [dictInsert, lookupV]
  | cons p rest ih =>
    by_cases hp : p.1 = k
    · simp [dictInsert, lookupV, hp]
    · simp [dictInsert, lookupV, hp, ih]

theorem lookupV_insert_ne (d : Dict) (k k' : String) (v : PyVal)
    (h : k' ≠ k) : lookupV (dictInsert d k v) k' = lookupV d k' := by
  induction d with
  | nil => simp [dictInsert, lookupV, Ne.symm h]
  | cons p rest ih =>
    by_cases hp : p.1 = k
    · have hp' : ¬ p.1 = k' := by rw [hp]; exact Ne.symm h
      simp [dictInsert, lookupV, hp, hp', Ne.symm h]
    · by_cases hp' : p.1 = k'
      · simp [dictInsert, lookupV, hp, hp', h]
      · simp [dictInsert, lookupV, hp, hp', ih]

theorem lookupV_remove_ne (d : Dict) (k k' : String) (h : k' ≠ k) :
    lookupV (dictRemove d k) k' = lookupV d k' := by
  induction d with
  | nil => rfl
  | cons p rest ih =>
    by_cases hp : p.1 = k
    · have hp' : ¬ p.1 = k' := by rw [hp]; exact Ne.symm h
      simpa [dictRemove, lookupV, List.filter_cons, hp, hp', Ne.symm h]
        using ih
    · by_cases hp' : p.1 = k'
      · simp [dictRemove, lookupV, List.filter_cons, hp, hp', h]
      · simpa [dictRemove, lookupV, List.filter_cons, hp, hp'] using ih

theorem dictInsert_fresh (d : Dict) (k : String) (v : PyVal)
    (h : ∀ p ∈ d, p.1 ≠ k) : dictInsert d k v = d ++ [(k, v)] := by
  induction d with
  | nil => rfl
  | cons p rest ih =>
    have hp : ¬ p.1 = k := h p (by simp)
    simp only [dictInsert, if_neg hp, List.cons_append, List.cons.injEq,
      true_and]
    exact ih (fun q hq => h q (by simp [hq]))

   /-! ### Global constants of the agent (radmonAgent.py, GLOBAL CONSTANTS) -/

/-- `_MAX_FAILED_DATA_REQUESTS = 3`: max number of failed data requests
allowed before the device is flagged offline. -/
def maxFailedDataRequests : Nat := 3

/-- `_SERVER_MODE = "primary"`. -/
def serverMode : String := "primary"

/-- `_USE_RADMON_TIMESTAMP = True`. -/
def useRadmonTimestamp : Bool := true

   /-! ### Agent state and the availability tracker -/

/-- The process-wide mutable state of the agent together with the snapshot
output file (`_OUTPUT_DATA_FILE`): `outputFile = none` models an absent
file, `some d` a file holding the serialization of dictionary `d`. -/
structure AgentState where
  failedUpdateCount : Nat
  radmonOnline : Bool
  remoteDeviceReset : Bool
  outputFile : Option Dict
deriving DecidableEq, Repr

/-- Log/side-effect events produced by one `setRadmonStatus` call. -/
structure StatusEvents where
  /-- `setStatusToOffline()` was invoked (the Online→Offline transition
  action: remove the snapshot file, set the flag offline). -/
  calledSetOffline : Bool
  /-- the one-time log line `radiation monitor offline` was printed. -/
  loggedOffline : Bool
  /-- the one-time log line `radiation monitor online` was printed. -/
  loggedOnline : Bool
deriving DecidableEq, Repr

/-- `setStatusToOffline()` (radmonAgent.py:125-142): remove the output data
file, print the offline message if the monitor was previously online, and
set `radmonOnline = False`.  Returns the new state and whether the offline
message was printed. -/
def setStatusToOffline (s : AgentState) : AgentState × Bool :=
  ({ s with outputFile := none, radmonOnline := false }, s.radmonOnline)

/-- `setRadmonStatus(updateSuccess)` (radmonAgent.py:305-330): on success
reset the failure counter and flag the monitor online (logging the
transition if it was offline); on failure, if the counter equals
`_MAX_FAILED_DATA_REQUESTS - 1` invoke `setStatusToOffline()`, and in every
failure case increment the counter. -/
def setRadmonStatus (updateSuccess : Bool) (s : AgentState) :
    AgentState × StatusEvents :=
  if updateSuccess then
    ({ s with failedUpdateCount := 0, radmonOnline := true },
     { calledSetOffline := false, loggedOffline := false,
       loggedOnline := !s.radmonOnline })
  else if s.failedUpdateCount = maxFailedDataRequests - 1 then
    let p := setStatusToOffline s
    ({ p.1 with failedUpdateCount := p.1.failedUpdateCount + 1 },
     { calledSetOffline := true, loggedOffline := p.2, loggedOnline := false })
  else
    ({ s with failedUpdateCount := s.failedUpdateCount + 1 },
     { calledSetOffline := false, loggedOffline := false, loggedOnline := false })

/-- One failed cycle as observed by the availability tracker. -/
def failStep (s : AgentState) : AgentState := (setRadmonStatus false s).1

/-- `n` consecutive failed cycles. -/
def runFailures : Nat → AgentState → AgentState
  | 0, s => s
  | n + 1, s => failStep (runFailures n s)

/-- Closed form of the tracker state after `n` consecutive failed cycles
starting from a counter-zero Online state (the state right after any
successful cycle). -/
theorem runFailures_closed (n : Nat) (r : Bool) (f : Option Dict) :
    runFailures n ⟨0, true, r, f⟩ =
      ⟨n, decide (n < maxFailedDataRequests),
       r, if n < maxFailedDataRequests then f else none⟩ := by
  induction n with
  | zero => simp [runFailures, maxFailedDataRequests]
  | succ n ih =>
    rw [runFailures, ih]
    unfold failStep setRadmonStatus setStatusToOffline maxFailedDataRequests
    simp only [maxFailedDataRequests] at *
    rcases Nat.lt_trichotomy n 2 with h | h | h
    · have h1 : ¬ n = 3 - 1 := by omega
      have h2 : n < 3 := by omega
      have h3 : n + 1 < 3 := by omega
      simp [h1, h2, h3]
    · subst h
      norm_num
    · have h1 : ¬ n = 3 - 1 := by omega
      have h2 : ¬ n < 3 := by omega
      have h3 : ¬ n + 1 < 3 := by omega
      simp [h1, h2, h3]

/-- Claim C1: for the availability state machine, the failure counter
increments on every failed cycle and resets to zero on every successful
cycle; a single successful cycle immediately sets the state to Online; and
starting from the counter-zero Online state (reached after any success) the
Online→Offline transition action — the `setStatusToOffline` call with its
one-time offline log — fires on the `(n+1)`-th consecutive failed cycle
exactly when `n+1 = _MAX_FAILED_DATA_REQUESTS`, not before and not again,
and the online flag actually drops exactly there. -/
theorem radmonC1_availability (s : AgentState) (n : Nat) (r : Bool)
    (f : Option Dict) :
    (setRadmonStatus true s).1.failedUpdateCount = 0 ∧
    (setRadmonStatus true s).1.radmonOnline = true ∧
    (setRadmonStatus false s).1.failedUpdateCount = s.failedUpdateCount + 1 ∧
    (setRadmonStatus false (runFailures n ⟨0, true, r, f⟩)).2.calledSetOffline
      = decide (n + 1 = maxFailedDataRequests) ∧
    (setRadmonStatus false (runFailures n ⟨0, true, r, f⟩)).2.loggedOffline
      = decide (n + 1 = maxFailedDataRequests) ∧
    (runFailures n ⟨0, true, r, f⟩).radmonOnline
      = decide (n < maxFailedDataRequests) := by
  refine ⟨by simp [setRadmonStatus], by simp [setRadmonStatus], ?_, ?_, ?_, ?_⟩
  · unfold setRadmonStatus setStatusToOffline
    by_cases h : s.failedUpdateCount = maxFailedDataRequests - 1 <;> simp [h]
  · rw [runFailures_closed]
    unfold setRadmonStatus setStatusToOffline maxFailedDataRequests
    rcases Nat.lt_trichotomy n 2 with h | h | h
    · have h1 : ¬ n = 3 - 1 := by omega
      have h2 : ¬ n + 1 = 3 := by omega
      simp [h1, h2]
    · subst h; norm_num
    · have h1 : ¬ n = 3 - 1 := by omega
      have h2 : ¬ n + 1 = 3 := by omega
      simp [h1, h2]
  · rw [runFailures_closed]
    unfold setRadmonStatus setStatusToOffline maxFailedDataRequests
    rcases Nat.lt_trichotomy n 2 with h | h | h
    · have h1 : ¬ n = 3 - 1 := by omega
      have h2 : ¬ n + 1 = 3 := by omega
      simp [h1, h2]
    · subst h; norm_num
    · have h1 : ¬ n = 3 - 1 := by omega
      have h2 : ¬ n + 1 = 3 := by omega
      simp [h1, h2]
  · rw [runFailures_closed]

   /-! ### Python string primitives, modelled on the character level

Core `String` routines are replaced by structurally recursive equivalents so
that every definition evaluates inside the kernel; a Python `str` is its
character sequence. -/

/-- Auxiliary for single-character `str.split`: the accumulator holds the
current token reversed. -/
def splitChar (sep : Char) : List Char → List Char → List (List Char)
  | [], acc => [acc.reverse]
  | c :: rest, acc =>
      if c = sep then acc.reverse :: splitChar sep rest []
      else splitChar sep rest (c :: acc)

/-- Python `s.split(sep)` for a one-character separator. -/
def pySplit (s : String) (sep : Char) : List String :=
  (splitChar sep s.data []).map String.mk

/-- Python `s.replace(c, '')`: drop every occurrence of the character. -/
def pyRemoveChar (s : String) (c : Char) : String :=
  String.mk (s.data.filter (fun a => a != c))

/-- Python `c in s` for a one-character needle. -/
def pyContainsChar (s : String) (c : Char) : Bool :=
  s.data.any (fun a => a == c)

/-- Python slicing `s[2:-2]`. -/
def pySlice2 (s : String) : String :=
  String.mk ((s.data.drop 2).take (s.data.length - 2 - 2))

/-- Python `s.lower()` (ASCII case folding). -/
def pyLower (s : String) : String :=
  String.mk (s.data.map Char.toLower)

   /-! ### Fetcher (`getRadiationData`) -/

/-- Result of one `getRadiationData(dData)` call, with the request path that
was targeted and the number of HTTP requests issued during the call. -/
structure FetchResult where
  success : Bool
  content : Option String
  attempts : Nat
  urlPath : String
deriving DecidableEq, Repr

/-- The newline stripping `content.replace('\n','').replace('\r','')`
applied to the HTTP response body (radmonAgent.py:181-182). -/
def cleanContent (raw : String) : String :=
  pyRemoveChar (pyRemoveChar raw '\n') '\r'

/-- `getRadiationData(dData)` (radmonAgent.py:160-202): chooses the
`/reset` path when `remoteDeviceReset` is set, else `/rdata`; issues a
single HTTP request (`resp = none` models an error, a timeout or an
unreadable response — the `except` path); an empty body after newline
stripping raises and is likewise a failure.  The global state is read but
never written by this function. -/
def getRadiationData (s : AgentState) (resp : Option String) :
    AgentState × FetchResult :=
  let path : String := if s.remoteDeviceReset then "/reset" else "/rdata"
  match resp with
  | none => (s, ⟨false, none, 1, path⟩)
  | some raw =>
      let content := cleanContent raw
      if content = "" then (s, ⟨false, none, 1, path⟩)
      else (s, ⟨true, some content, 1, path⟩)

/-- Claim C2 counterexample: a fetch whose single HTTP request errors out
returns a cycle `Failure` after exactly one attempt — there is no retry,
no retry delay and no retry budget of 5, contradicting the claim that the
fetch retries up to a bounded count before failing the cycle. -/
theorem radmonC2_counter :
    (getRadiationData ⟨0, false, false, none⟩ none).2.success = false ∧
    (getRadiationData ⟨0, false, false, none⟩ none).2.attempts = 1 :=
  ⟨rfl, rfl⟩

/-- Claim C2 (amended): every invocation of `getRadiationData` issues
exactly ONE HTTP request; the invocation fails precisely when that request
errors/times out or when the body is empty after newline stripping, and it
never mutates the agent state.  Retrying happens only across control-loop
cycles, never inside the fetch. -/
theorem radmonC2_amended (s : AgentState) (resp : Option String) :
    (getRadiationData s resp).2.attempts = 1 ∧
    (getRadiationData s resp).2.success =
      (match resp with
       | none => false
       | some raw => !(cleanContent raw == "")) ∧
    (getRadiationData s resp).1 = s := by
  match resp with
  | none => exact ⟨rfl, rfl, rfl⟩
  | some raw =>
    by_cases h : cleanContent raw = ""
    · simp [getRadiationData, h]
    · simp [getRadiationData, h]

   /-! ### Parser (`parseDataString`) -/

/-- `item.split('=')[0]`. -/
def tokKey (t : String) : String := (pySplit t '=').headD ""

/-- `item.split('=')[1]`. -/
def tokVal (t : String) : String := (pySplit t '=').getD 1 ""

/-- One iteration of the parsing loop (radmonAgent.py:227-229): a token
containing `=` is stored under its key; any other token is skipped. -/
def parseStep (d : Dict) (item : String) : Dict :=
  if pyContainsChar item '=' then
    dictInsert d (tokKey item) (PyVal.str (tokVal item))
  else d

/-- `parseDataString(dData)` (radmonAgent.py:204-236): strip the two-byte
framing on each side (`sData[2:-2]`), split on commas, fail with the
"corrupted data string" classification unless exactly 5 tokens result,
then load the `key=value` tokens into the dictionary and append the
`status` and `serverMode` entries. -/
def parseDataString (content : String) : Option Dict :=
  let lData := pySplit (pySlice2 content) ','
  if lData.length ≠ 5 then none
  else
    some (dictInsert
      (dictInsert (lData.foldl parseStep []) "status" (PyVal.str "online"))
      "serverMode" (PyVal.str serverMode))

/-- The parsing loop over well-formed tokens with keys fresh for the
accumulator appends one entry per token. -/
theorem foldl_parseStep (ts : List String) (d : Dict)
    (hwf : ∀ t ∈ ts, pyContainsChar t '=' = true)
    (hfresh : ∀ t ∈ ts, ∀ p ∈ d, p.1 ≠ tokKey t)
    (hnodup : (ts.map tokKey).Nodup) :
    ts.foldl parseStep d
      = d ++ ts.map (fun t => (tokKey t, PyVal.str (tokVal t))) := by
  induction ts generalizing d with
  | nil => simp
  | cons t rest ih =>
    have hstep : parseStep d t = d ++ [(tokKey t, PyVal.str (tokVal t))] := by
      rw [parseStep, if_pos (hwf t (by simp))]
      exact dictInsert_fresh _ _ _ (hfresh t (by simp))
    have hnodup' : (rest.map tokKey).Nodup := (List.nodup_cons.mp hnodup).2
    have hnotmem : tokKey t ∉ rest.map tokKey := (List.nodup_cons.mp hnodup).1
    have hwf' : ∀ u ∈ rest, pyContainsChar u '=' = true :=
      fun u hu => hwf u (by simp [hu])
    have hfresh' : ∀ u ∈ rest,
        ∀ p ∈ d ++ [(tokKey t, PyVal.str (tokVal t))], p.1 ≠ tokKey u := by
      intro u hu p hp
      rcases List.mem_append.mp hp with hpd | hpt
      · exact hfresh u (by simp [hu]) p hpd
      · simp only [List.mem_singleton] at hpt
        rw [hpt]
        intro hc
        have hc' : tokKey t = tokKey u := hc
        exact hnotmem (hc' ▸ List.mem_map_of_mem tokKey hu)
    rw [List.foldl_cons, hstep,
      ih (d ++ [(tokKey t, PyVal.str (tokVal t))]) hwf' hfresh' hnodup']
    simp

/-- Claim C3 (amended): parsing succeeds exactly when the comma-split of
the payload between the sentinels yields 5 tokens — tokens WITHOUT `=` are
counted toward the 5 even though they are ignored when the fields are
loaded.  With 5 well-formed `key=value` tokens bearing distinct keys the
resulting record's keys are exactly those 5 keys followed by the fixed
`status` and `serverMode` metadata entries; but (see the counterexample) a
payload whose 5 tokens include `=`-less ones still parses successfully
with fewer than 5 recognized fields. -/
theorem radmonC3_amended :
    (∀ (s : String) (ts : List String),
      pySplit (pySlice2 s) ',' = ts →
      ts.length = 5 →
      (∀ t ∈ ts, pyContainsChar t '=' = true) →
      (ts.map tokKey).Nodup →
      "status" ∉ ts.map tokKey →
      "serverMode" ∉ ts.map tokKey →
      ∃ d, parseDataString s = some d ∧
        d.map Prod.fst = ts.map tokKey ++ ["status", "serverMode"]) ∧
    (∀ s : String, (pySplit (pySlice2 s) ',').length ≠ 5 →
      parseDataString s = none) := by
  constructor
  · intro s ts hsplit hlen hwf hnodup hstatus hserver
    have hfold : ts.foldl parseStep []
        = ts.map (fun t => (tokKey t, PyVal.str (tokVal t))) := by
      rw [foldl_parseStep ts [] hwf (by intro t _ p hp; simp at hp) hnodup]
      simp
    have hfreshS : ∀ p ∈ ts.map (fun t => (tokKey t, PyVal.str (tokVal t))),
        p.1 ≠ "status" := by
      intro p hp
      rcases List.mem_map.mp hp with ⟨t, ht, rfl⟩
      intro hc
      exact hstatus (hc ▸ List.mem_map_of_mem tokKey ht)
    have hfreshM : ∀ p ∈ ts.map (fun t => (tokKey t, PyVal.str (tokVal t)))
        ++ [("status", PyVal.str "online")], p.1 ≠ "serverMode" := by
      intro p hp
      rcases List.mem_append.mp hp with hpd | hpt
      · rcases List.mem_map.mp hpd with ⟨t, ht, rfl⟩
        intro hc
        exact hserver (hc ▸ List.mem_map_of_mem tokKey ht)
      · simp only [List.mem_singleton] at hpt
        rw [hpt]
        decide
    refine ⟨ts.map (fun t => (tokKey t, PyVal.str (tokVal t)))
      ++ [("status", PyVal.str "online")]
      ++ [("serverMode", PyVal.str serverMode)], ?_, ?_⟩
    · unfold parseDataString
      rw [hsplit, if_neg (by rw [hlen]; decide), hfold,
        dictInsert_fresh _ _ _ hfreshS, dictInsert_fresh _ _ _ hfreshM]
    · simp [serverMode]
  · intro s hlen
    unfold parseDataString
    rw [if_pos hlen]

/-- The canonical corrupted payload of claim C3: five comma-separated
tokens of which one (`junk`) carries no `=`. -/
def corruptPayload : String := "$,UTC=a,CPS=0,CPM=26,uSv/hr=0.14,junk,#"

/-- Claim C3 counterexample: the payload has only 4 recognized `key=value`
fields (the token `junk` is ignored), yet `parseDataString` SUCCEEDS and
propagates the partial record — the token count, not the recognized-field
count, is what is compared with 5.  This refutes "parse fails whenever the
count of recognized key=value fields differs from 5". -/
theorem radmonC3_counter :
    parseDataString corruptPayload = some
      [("UTC", PyVal.str "a"), ("CPS", PyVal.str "0"),
       ("CPM", PyVal.str "26"), ("uSv/hr", PyVal.str "0.14"),
       ("status", PyVal.str "online"), ("serverMode", PyVal.str "primary")] := by
  decide

/-- Witness for claim C3: the canonical well-formed payload of the spec
instantiates the amended theorem; its five keys plus the metadata keys are
recovered. -/
theorem radmonC3_witness :
    ∃ d, parseDataString "$,UTC=17:09:33 06/22/2021,CPS=0,CPM=26,uSv/hr=0.14,Mode=SLOW,#"
        = some d ∧
      d.map Prod.fst = ["UTC", "CPS", "CPM", "uSv/hr", "Mode", "status", "serverMode"] := by
  have h := radmonC3_amended.1
    "$,UTC=17:09:33 06/22/2021,CPS=0,CPM=26,uSv/hr=0.14,Mode=SLOW,#"
    ["UTC=17:09:33 06/22/2021", "CPS=0", "CPM=26", "uSv/hr=0.14", "Mode=SLOW"]
    (by decide) (by decide) (by decide) (by decide) (by decide) (by decide)
  rcases h with ⟨d, hd, hkeys⟩
  exact ⟨d, hd, by rw [hkeys]; decide⟩

   /-! ### Decimal numerals

Python floats are modelled as exact rationals.  `'%.2f' % x` formatting and
`float(s)` parsing of plain decimal literals are implemented on character
lists; printing uses explicit fuel so that everything reduces inside the
kernel. -/

/-- Value of a decimal digit character. -/
def digitVal (c : Char) : Option Nat :=
  if '0' ≤ c ∧ c ≤ '9' then some (c.toNat - 48) else none

/-- The character of a decimal digit. -/
def digitChar (d : Nat) : Char := Char.ofNat (48 + d)

/-- Accumulating most-significant-first decimal parse. -/
def parseDigitsCore : List Char → Nat → Option Nat
  | [], acc => some acc
  | c :: rest, acc =>
      match digitVal c with
      | some d => parseDigitsCore rest (10 * acc + d)
      | none => none

/-- Parse a nonempty all-digit string. -/
def parseDigits : List Char → Option Nat
  | [] => none
  | c :: rest => parseDigitsCore (c :: rest) 0

/-- Digits of `n`, least significant first, with explicit fuel. -/
def natDigitsRevFuel : Nat → Nat → List Char
  | 0, _ => []
  | fuel + 1, n =>
      if n < 10 then [digitChar n]
      else digitChar (n % 10) :: natDigitsRevFuel fuel (n / 10)

/-- Decimal digits of `n`, most significant first. -/
def natDigits (n : Nat) : List Char := (natDigitsRevFuel (n + 1) n).reverse

/-- Two-digit zero-padded numeral (`%02d`-style), used for the fraction of
`'%.2f'` output. -/
def pad2Chars (b : Nat) : List Char :=
  if b < 10 then '0' :: natDigits b else natDigits b

/-- Round to the nearest integer, ties to even — the rounding applied by
Python `'%.2f'` formatting. -/
def roundHalfEven (q : ℚ) : Int :=
  let f := ⌊q⌋
  if q - f < 1 / 2 then f
  else if 1 / 2 < q - f then f + 1
  else if f % 2 = 0 then f else f + 1

/-- Character sequence of `'%.2f' % q`. -/
def format2fChars (q : ℚ) : List Char :=
  let n := roundHalfEven (q * 100)
  (if n < 0 then ['-'] else [])
    ++ natDigits (n.natAbs / 100) ++ '.' :: pad2Chars (n.natAbs % 100)

/-- Python `'%.2f' % q`. -/
def format2f (q : ℚ) : String := String.mk (format2fChars q)

/-- Python `float(s)` on a plain decimal literal (optionally signed, digits
with an optional single decimal point); anything else raises and is
modelled as `none`. -/
def parseUnsignedFloat (cs : List Char) : Option ℚ :=
  let ip := cs.takeWhile (fun c => c != '.')
  let fpRest := cs.dropWhile (fun c => c != '.')
  match fpRest with
  | [] => (parseDigits ip).map (fun n => (n : ℚ))
  | _ :: fp =>
      match ip, fp with
      | [], [] => none
      | [], _ => (parseDigits fp).map (fun f => (f : ℚ) / (10 : ℚ) ^ fp.length)
      | _, [] => (parseDigits ip).map (fun n => (n : ℚ))
      | _, _ =>
          match parseDigits ip, parseDigits fp with
          | some n, some f => some ((n : ℚ) + (f : ℚ) / (10 : ℚ) ^ fp.length)
          | _, _ => none

/-- Python `float(s)`: optional sign then an unsigned decimal literal. -/
def parsePyFloat (s : String) : Option ℚ :=
  match s.data with
  | [] => none
  | c :: rest =>
      if c = '-' then (parseUnsignedFloat rest).map (fun q => -q)
      else if c = '+' then parseUnsignedFloat rest
      else parseUnsignedFloat (c :: rest)

theorem digitVal_digitChar (d : Nat) (h : d < 10) :
    digitVal (digitChar d) = some d := by
  interval_cases d <;> decide

theorem digitVal_isSome_ne (c : Char) (h : (digitVal c).isSome) :
    c ≠ '.' ∧ c ≠ '-' ∧ c ≠ '+' := by
  refine ⟨?_, ?_, ?_⟩ <;> rintro rfl <;> simp [digitVal] at h

theorem parseDigitsCore_append (cs ds : List Char) (acc : Nat) :
    parseDigitsCore (cs ++ ds) acc =
      match parseDigitsCore cs acc with
      | some m => parseDigitsCore ds m
      | none => none := by
  induction cs generalizing acc with
  | nil => rfl
  | cons c rest ih =>
    simp only [List.cons_append, parseDigitsCore]
    match hd : digitVal c with
    | some d => simp [ih]
    | none => rfl

theorem natDigitsRevFuel_digits (fuel n : Nat) (h : n < fuel) :
    ∀ c ∈ natDigitsRevFuel fuel n, (digitVal c).isSome := by
  induction fuel generalizing n with
  | zero => omega
  | succ fuel ih =>
    intro c hc
    by_cases h10 : n < 10
    · simp only [natDigitsRevFuel, if_pos h10, List.mem_singleton] at hc
      rw [hc, digitVal_digitChar n h10]
      rfl
    · simp only [natDigitsRevFuel, if_neg h10, List.mem_cons] at hc
      rcases hc with hc | hc
      · rw [hc, digitVal_digitChar (n % 10) (Nat.mod_lt n (by omega))]
        rfl
      · exact ih (n / 10) (by omega) c hc

theorem natDigits_digits (n : Nat) :
    ∀ c ∈ natDigits n, (digitVal c).isSome := by
  intro c hc
  rw [natDigits, List.mem_reverse] at hc
  exact natDigitsRevFuel_digits (n + 1) n (Nat.lt_succ_self n) c hc

theorem parseDigitsCore_natDigitsRevFuel (fuel n acc : Nat) (h : n < fuel) :
    parseDigitsCore (natDigitsRevFuel fuel n).reverse acc =
      some (acc * 10 ^ (natDigitsRevFuel fuel n).length + n) := by
  induction fuel generalizing n acc with
  | zero => omega
  | succ fuel ih =>
    by_cases h10 : n < 10
    · simp only [natDigitsRevFuel, if_pos h10, List.reverse_singleton,
        parseDigitsCore, digitVal_digitChar n h10, List.length_singleton,
        pow_one]
      ring_nf
    · simp only [natDigitsRevFuel, if_neg h10, List.reverse_cons,
        List.length_cons]
      rw [parseDigitsCore_append, ih (n / 10) acc (by omega)]
      simp only [parseDigitsCore, digitVal_digitChar (n % 10)
        (Nat.mod_lt n (by omega))]
      congr 1
      have := Nat.div_add_mod n 10
      ring_nf
      omega

theorem natDigitsRevFuel_ne_nil (fuel n : Nat) (h : n < fuel) :
    natDigitsRevFuel fuel n ≠ [] := by
  match fuel with
  | fuel + 1 =>
    by_cases h10 : n < 10 <;> simp [natDigitsRevFuel, h10]

theorem parseDigits_natDigits (n : Nat) :
    parseDigits (natDigits n) = some n := by
  have hne : natDigits n ≠ [] := by
    rw [natDigits]
    intro hc
    exact natDigitsRevFuel_ne_nil (n + 1) n (Nat.lt_succ_self n)
      (List.reverse_eq_nil_iff.mp hc)
  match hd : natDigits n with
  | [] => exact absurd hd hne
  | c :: rest =>
    have := parseDigitsCore_natDigitsRevFuel (n + 1) n 0 (Nat.lt_succ_self n)
    rw [← natDigits, hd] at this
    rw [parseDigits, this]
    simp

theorem natDigits_lt10 (b : Nat) (h : b < 10) :
    natDigits b = [digitChar b] := by
  simp [natDigits, natDigitsRevFuel, h]

theorem natDigits_two_digit (b : Nat) (h1 : 10 ≤ b) (h2 : b < 100) :
    natDigits b = [digitChar (b / 10), digitChar (b % 10)] := by
  obtain ⟨m, rfl⟩ : ∃ m, b = m + 1 := ⟨b - 1, by omega⟩
  have hd : (m + 1) / 10 < 10 := by omega
  rw [natDigits]
  simp only [natDigitsRevFuel, if_neg (by omega : ¬ m + 1 < 10), if_pos hd]
  simp

theorem pad2Chars_spec (b : Nat) (h : b < 100) :
    parseDigits (pad2Chars b) = some b ∧ (pad2Chars b).length = 2 := by
  have h0 : digitVal '0' = some 0 := by decide
  by_cases h10 : b < 10
  · rw [pad2Chars, if_pos h10, natDigits_lt10 b h10]
    refine ⟨?_, rfl⟩
    simp [parseDigits, parseDigitsCore, h0, digitVal_digitChar b h10]
  · rw [pad2Chars, if_neg h10, natDigits_two_digit b (by omega) h]
    refine ⟨?_, rfl⟩
    simp only [parseDigits, parseDigitsCore,
      digitVal_digitChar (b / 10) (by omega),
      digitVal_digitChar (b % 10) (Nat.mod_lt b (by omega))]
    congr 1
    omega

theorem takeWhile_digits_dot (l l' : List Char)
    (h : ∀ c ∈ l, (digitVal c).isSome) :
    (l ++ '.' :: l').takeWhile (fun c => c != '.') = l ∧
    (l ++ '.' :: l').dropWhile (fun c => c != '.') = '.' :: l' := by
  induction l with
  | nil => simp [List.takeWhile, List.dropWhile]
  | cons c rest ih =>
    have hc : c ≠ '.' := (digitVal_isSome_ne c (h c (by simp))).1
    have hcb : (c != '.') = true := by simp [hc]
    have := ih (fun u hu => h u (by simp [hu]))
    simp only [List.cons_append, List.takeWhile_cons, List.dropWhile_cons,
      hcb, if_true]
    exact ⟨by rw [this.1], by rw [this.2]⟩

theorem parseUnsignedFloat_split (ip fp : List Char) (a b : Nat)
    (hip : ∀ c ∈ ip, (digitVal c).isSome)
    (hpa : parseDigits ip = some a) (hpb : parseDigits fp = some b)
    (hipne : ip ≠ []) (hfpne : fp ≠ []) :
    parseUnsignedFloat (ip ++ '.' :: fp)
      = some ((a : ℚ) + (b : ℚ) / (10 : ℚ) ^ fp.length) := by
  obtain ⟨c, ip', rfl⟩ : ∃ c ip', ip = c :: ip' := by
    match ip with
    | [] => exact absurd rfl hipne
    | c :: ip' => exact ⟨c, ip', rfl⟩
  obtain ⟨f, fp', rfl⟩ : ∃ f fp', fp = f :: fp' := by
    match fp with
    | [] => exact absurd rfl hfpne
    | f :: fp' => exact ⟨f, fp', rfl⟩
  have hsplit := takeWhile_digits_dot (c :: ip') (f :: fp') hip
  rw [parseUnsignedFloat]
  simp only [hsplit.1, hsplit.2]
  rw [hpa, hpb]

theorem roundHalfEven_nonneg (q : ℚ) (h : 0 ≤ q) : 0 ≤ roundHalfEven q := by
  have hf : 0 ≤ ⌊q⌋ := Int.le_floor.mpr (by exact_mod_cast h)
  rw [roundHalfEven]
  split_ifs <;> omega

/-- Re-parsing the `'%.2f'`-formatted value recovers the rounded-to-
hundredths rational — the exact relation between the display string and
the number the database update recomputes from it. -/
theorem parsePyFloat_format2f (q : ℚ) (h : 0 ≤ q) :
    parsePyFloat (format2f q)
      = some ((roundHalfEven (q * 100) : ℚ) / 100) := by
  have hn0 : 0 ≤ roundHalfEven (q * 100) :=
    roundHalfEven_nonneg _ (by positivity)
  set n := roundHalfEven (q * 100) with hn
  set a := n.natAbs / 100 with ha
  set b := n.natAbs % 100 with hb
  have hblt : b < 100 := Nat.mod_lt _ (by norm_num)
  have hpad := pad2Chars_spec b hblt
  have hchars : format2fChars q = natDigits a ++ '.' :: pad2Chars b := by
    rw [format2fChars]
    simp only [← hn, if_neg (by omega : ¬ n < 0), List.nil_append, ← ha, ← hb]
  have hane : natDigits a ≠ [] := by
    rw [natDigits]
    intro hc
    exact natDigitsRevFuel_ne_nil (a + 1) a (Nat.lt_succ_self a)
      (List.reverse_eq_nil_iff.mp hc)
  obtain ⟨c, cs', hda⟩ : ∃ c cs', natDigits a = c :: cs' := by
    match hd : natDigits a with
    | [] => exact absurd hd hane
    | c :: cs' => exact ⟨c, cs', rfl⟩
  have hcdig : (digitVal c).isSome := natDigits_digits a c (by rw [hda]; simp)
  obtain ⟨-, hcm, hcp⟩ := digitVal_isSome_ne c hcdig
  have hstep1 : parsePyFloat (format2f q)
      = parseUnsignedFloat (natDigits a ++ '.' :: pad2Chars b) := by
    rw [format2f, hchars, hda, List.cons_append]
    rw [show parsePyFloat ⟨c :: (cs' ++ '.' :: pad2Chars b)⟩
        = if c = '-' then
            (parseUnsignedFloat (cs' ++ '.' :: pad2Chars b)).map (fun x => -x)
          else if c = '+' then parseUnsignedFloat (cs' ++ '.' :: pad2Chars b)
          else parseUnsignedFloat (c :: (cs' ++ '.' :: pad2Chars b)) from rfl]
    rw [if_neg hcm, if_neg hcp, ← List.cons_append]
  rw [hstep1, parseUnsignedFloat_split (natDigits a) (pad2Chars b) a b
    (natDigits_digits a) (parseDigits_natDigits a) hpad.1 hane
    (by rw [show (2 : Nat) = 2 from rfl] at hpad; intro hc; rw [hc] at hpad
        exact absurd hpad.2 (by decide)), hpad.2]
  have hab : 100 * a + b = n.natAbs := by
    rw [ha, hb]
    omega
  have hcast : (n.natAbs : ℚ) = (n : ℚ) := by
    rw [Int.cast_natAbs]
    exact congrArg _ (abs_of_nonneg hn0)
  congr 1
  have : ((100 * a + b : Nat) : ℚ) = (n : ℚ) := by rw [hab, hcast]
  push_cast at this
  nlinarith [this]

   /-! ### Timestamps (`time.strptime`, `calendar.timegm`, `time.localtime`) -/

/-- Broken-down calendar time (the `struct_time` fields the agent uses). -/
structure Tm where
  year : Nat
  month : Nat
  day : Nat
  hour : Nat
  minute : Nat
  second : Nat
deriving DecidableEq, Repr

/-- Gregorian leap-year rule. -/
def isLeap (y : Nat) : Bool := (y % 4 == 0 && y % 100 != 0) || y % 400 == 0

/-- Lengths of the months of year `y`. -/
def monthDays (y : Nat) : List Nat :=
  [31, if isLeap y then 29 else 28, 31, 30, 31, 30, 31, 31, 30, 31, 30, 31]

/-- Days from 1970-01-01 to the start of year `y` (for `y ≥ 1970`). -/
def daysBeforeYear (y : Nat) : Nat :=
  (List.range (y - 1970)).foldl
    (fun acc i => acc + (if isLeap (1970 + i) then 366 else 365)) 0

/-- Days from the start of year `y` to the start of its month `m`. -/
def daysBeforeMonth (y m : Nat) : Nat := ((monthDays y).take (m - 1)).sum

/-- Modelled from the Python standard library: `calendar.timegm`, the UTC
(proleptic-Gregorian) calendar-to-epoch conversion, for years from 1970 on.
It consults no timezone information at all. -/
def timegm (t : Tm) : Int :=
  ((((daysBeforeYear t.year + daysBeforeMonth t.year t.month
      + (t.day - 1)) * 24 + t.hour) * 60 + t.minute) * 60 + t.second : Nat)

/-- Modelled from the Python standard library:
`time.strptime(s, "%H:%M:%S %m/%d/%Y")` — split at the blank, the time at
colons, the date at slashes; every component must be a digit string within
`strptime`'s per-field range, else the call raises (`none`). -/
def strptimeHMS_MDY (s : String) : Option Tm :=
  match pySplit s ' ' with
  | [tpart, dpart] =>
      match pySplit tpart ':', pySplit dpart '/' with
      | [hs, ms, ss], [mos, ds, ys] =>
          match parseDigits hs.data, parseDigits ms.data,
              parseDigits ss.data, parseDigits mos.data,
              parseDigits ds.data, parseDigits ys.data with
          | some h, some mi, some sec, some mo, some day, some y =>
              if h ≤ 23 ∧ mi ≤ 59 ∧ sec ≤ 61 ∧ 1 ≤ mo ∧ mo ≤ 12
                  ∧ 1 ≤ day ∧ day ≤ 31 then
                some ⟨y, mo, day, h, mi, sec⟩
              else none
          | _, _, _, _, _, _ => none
      | _, _ => none
  | _ => none

/-- Year and remaining day count from days-since-epoch (fuel-driven scan;
any fuel above the day count is enough). -/
def findYear : Nat → Nat → Nat → Nat × Nat
  | 0, y, days => (y, days)
  | fuel + 1, y, days =>
      let yd := if isLeap y then 366 else 365
      if days < yd then (y, days) else findYear fuel (y + 1) (days - yd)

/-- Month and remaining day count from a day offset inside a year. -/
def findMonth : List Nat → Nat → Nat → Nat × Nat
  | [], m, days => (m, days)
  | md :: rest, m, days =>
      if days < md then (m, days) else findMonth rest (m + 1) (days - md)

/-- Epoch seconds to broken-down time (valid for nonnegative epochs). -/
def epochToTm (t : Int) : Tm :=
  let tn := t.toNat
  let days := tn / 86400
  let rem := tn % 86400
  let yr := findYear (days + 1) 1970 days
  let mr := findMonth (monthDays yr.1) 1 yr.2
  ⟨yr.1, mr.1, mr.2 + 1, rem / 3600, rem % 3600 / 60, rem % 60⟩

/-- Two-digit zero-padded decimal string. -/
def pad2Str (n : Nat) : String := String.mk (pad2Chars n)

/-- Modelled from the Python standard library:
`time.strftime("%m/%d/%Y %T", time.localtime(e))`, with the host's local
timezone modelled as a fixed offset `tz` in seconds from UTC, so that
`localtime(e)` is the broken-down form of `e + tz`. -/
def formatLocalDate (tz : Int) (elt : Int) : String :=
  let tm := epochToTm (elt + tz)
  pad2Str tm.month ++ "/" ++ pad2Str tm.day ++ "/"
    ++ String.mk (natDigits tm.year) ++ " "
    ++ pad2Str tm.hour ++ ":" ++ pad2Str tm.minute ++ ":" ++ pad2Str tm.second

   /-! ### Converter (`convertData`) -/

/-- The tail of `convertData` shared by both timestamp policies
(radmonAgent.py:259-262), entered with the `ELT` value already determined:
store `ELT`, derive the local `date` string from it, pop `Mode` and store
it lower-cased as `mode`, pop `uSv/hr`, convert it with `float` and store
it as the 2-decimal string `uSvPerHr`.  A missing key or unconvertible
value raises and yields `none`. -/
def convertDataRest (tz : Int) (elt : Int) (d : Dict) : Option Dict :=
  let d2 := dictInsert (dictInsert d "ELT" (PyVal.int elt))
    "date" (PyVal.str (formatLocalDate tz elt))
  match dictPop d2 "Mode" with
  | some (PyVal.str mv, d3) =>
      match dictPop (dictInsert d3 "mode" (PyVal.str (pyLower mv)))
          "uSv/hr" with
      | some (PyVal.str uv, d4) =>
          match parsePyFloat uv with
          | some q =>
              some (dictInsert d4 "uSvPerHr" (PyVal.str (format2f q)))
          | none => none
      | _ => none
  | _ => none

/-- `convertData(dData)` (radmonAgent.py:238-269): with
`_USE_RADMON_TIMESTAMP` set (as configured), the device's `UTC` field is
parsed with `time.strptime` and converted with `calendar.timegm` — a pure
UTC calendar conversion — to epoch seconds `ELT`; otherwise the server
clock (`now`) is used.  Then the shared tail runs.  Any failure along the
way (missing key, unparseable timestamp, non-numeric dose) is caught and
fails the whole record.  `tz` is the host timezone offset, used only where
the source calls `time.localtime`. -/
def convertData (tz now : Int) (d : Dict) : Option Dict :=
  if useRadmonTimestamp then
    match lookupStr d "UTC" with
    | none => none
    | some utc =>
        match strptimeHMS_MDY utc with
        | none => none
        | some t => convertDataRest tz (timegm t) d
  else
    convertDataRest tz now d

/-- Computation of the converter tail when `Mode` and `uSv/hr` are present
string fields: the result is the `float`-parse of the dose value mapped
over the explicit dictionary rebuild. -/
theorem convertDataRest_eq (tz elt : Int) (d : Dict) (mv uv : String)
    (h3 : lookupV d "Mode" = some (PyVal.str mv))
    (h4 : lookupV d "uSv/hr" = some (PyVal.str uv)) :
    convertDataRest tz elt d =
      (parsePyFloat uv).map (fun q =>
        dictInsert (dictRemove (dictInsert (dictRemove
          (dictInsert (dictInsert d "ELT" (PyVal.int elt))
            "date" (PyVal.str (formatLocalDate tz elt))) "Mode")
          "mode" (PyVal.str (pyLower mv))) "uSv/hr")
          "uSvPerHr" (PyVal.str (format2f q))) := by
  have hm : lookupV (dictInsert (dictInsert d "ELT" (PyVal.int elt))
      "date" (PyVal.str (formatLocalDate tz elt))) "Mode"
      = some (PyVal.str mv) := by
    rw [lookupV_insert_ne _ _ _ _ (by decide),
      lookupV_insert_ne _ _ _ _ (by decide), h3]
  have hu : lookupV (dictInsert (dictRemove (dictInsert
      (dictInsert d "ELT" (PyVal.int elt))
      "date" (PyVal.str (formatLocalDate tz elt))) "Mode")
      "mode" (PyVal.str (pyLower mv))) "uSv/hr"
      = some (PyVal.str uv) := by
    rw [lookupV_insert_ne _ _ _ _ (by decide),
      lookupV_remove_ne _ _ _ (by decide),
      lookupV_insert_ne _ _ _ _ (by decide),
      lookupV_insert_ne _ _ _ _ (by decide), h4]
  rw [convertDataRest]
  simp only [dictPop, hm, hu]
  cases hq : parsePyFloat uv <;> simp [hq]

/-- Computation of `convertData` on a record whose `UTC`, `Mode` and
`uSv/hr` fields are present, with the timestamp parse and the dose parse
succeeding. -/
theorem convertData_eq (tz now : Int) (d : Dict) (utc : String) (t : Tm)
    (mv uv : String) (q : ℚ)
    (h1 : lookupV d "UTC" = some (PyVal.str utc))
    (h2 : strptimeHMS_MDY utc = some t)
    (h3 : lookupV d "Mode" = some (PyVal.str mv))
    (h4 : lookupV d "uSv/hr" = some (PyVal.str uv))
    (h5 : parsePyFloat uv = some q) :
    convertData tz now d = some
      (dictInsert (dictRemove (dictInsert (dictRemove
        (dictInsert (dictInsert d "ELT" (PyVal.int (timegm t)))
          "date" (PyVal.str (formatLocalDate tz (timegm t)))) "Mode")
        "mode" (PyVal.str (pyLower mv))) "uSv/hr")
        "uSvPerHr" (PyVal.str (format2f q))) := by
  rw [convertData]
  simp only [useRadmonTimestamp, if_true, lookupStr, h1, h2]
  rw [convertDataRest_eq tz (timegm t) d mv uv h3 h4, h5]
  rfl

/-- The `ELT` field of a successfully converted record, for any `date`
entry value (the only part of the rebuild that depends on the timezone). -/
theorem lookupV_converted_ELT (d : Dict) (elt : Int) (dv mval uval : PyVal) :
    lookupV (dictInsert (dictRemove (dictInsert (dictRemove
      (dictInsert (dictInsert d "ELT" (PyVal.int elt)) "date" dv) "Mode")
      "mode" mval) "uSv/hr") "uSvPerHr" uval) "ELT"
      = some (PyVal.int elt) := by
  rw [lookupV_insert_ne _ _ _ _ (by decide),
    lookupV_remove_ne _ _ _ (by decide),
    lookupV_insert_ne _ _ _ _ (by decide),
    lookupV_remove_ne _ _ _ (by decide),
    lookupV_insert_ne _ _ _ _ (by decide),
    lookupV_insert_self]

/-- Claim C5: for a record whose device timestamp parses under the format
`HH:MM:SS MM/DD/YYYY`, the epoch value `ELT` computed by `convertData` is
`timegm` of the parsed fields — a pure UTC calendar conversion — and is
identical under any two host local-timezone settings (`tz₁`, `tz₂`) and
server clocks. -/
theorem radmonC5_utcConversion (tz₁ tz₂ now₁ now₂ : Int) (d : Dict)
    (utc : String) (t : Tm) (mv uv : String) (q : ℚ)
    (h1 : lookupV d "UTC" = some (PyVal.str utc))
    (h2 : strptimeHMS_MDY utc = some t)
    (h3 : lookupV d "Mode" = some (PyVal.str mv))
    (h4 : lookupV d "uSv/hr" = some (PyVal.str uv))
    (h5 : parsePyFloat uv = some q) :
    (convertData tz₁ now₁ d).bind (fun r => lookupV r "ELT")
      = some (PyVal.int (timegm t)) ∧
    (convertData tz₁ now₁ d).bind (fun r => lookupV r "ELT")
      = (convertData tz₂ now₂ d).bind (fun r => lookupV r "ELT") := by
  rw [convertData_eq tz₁ now₁ d utc t mv uv q h1 h2 h3 h4 h5,
    convertData_eq tz₂ now₂ d utc t mv uv q h1 h2 h3 h4 h5]
  constructor
  · exact lookupV_converted_ELT d (timegm t) _ _ _
  · rw [Option.some_bind, Option.some_bind, lookupV_converted_ELT,
      lookupV_converted_ELT]

/-- The canonical parsed record of the spec's end-to-end scenario
(the dictionary produced by parsing
`$,UTC=17:09:33 06/22/2021,CPS=0,CPM=26,uSv/hr=0.14,Mode=SLOW,#`). -/
def sampleRecord : Dict :=
  [("UTC", PyVal.str "17:09:33 06/22/2021"), ("CPS", PyVal.str "0"),
   ("CPM", PyVal.str "26"), ("uSv/hr", PyVal.str "0.14"),
   ("Mode", PyVal.str "SLOW"), ("status", PyVal.str "online"),
   ("serverMode", PyVal.str "primary")]

/-- Witness for claim C5: converting the spec's sample record under the
host timezone UTC+05:30 and under UTC−07:00 yields the same `ELT`, namely
epoch second 1624381773 = 2021-06-22T17:09:33Z. -/
theorem radmonC5_witness :
    (convertData 19800 0 sampleRecord).bind (fun r => lookupV r "ELT")
      = some (PyVal.int 1624381773) ∧
    (convertData 19800 0 sampleRecord).bind (fun r => lookupV r "ELT")
      = (convertData (-25200) 55 sampleRecord).bind
          (fun r => lookupV r "ELT") := by
  have hq : parsePyFloat "0.14"
      = some (((0 : ℕ) : ℚ) + ((14 : ℕ) : ℚ) / (10 : ℚ) ^ 2) := rfl
  have h := radmonC5_utcConversion 19800 (-25200) 0 55 sampleRecord
    "17:09:33 06/22/2021" ⟨2021, 6, 22, 17, 9, 33⟩ "SLOW" "0.14" (7 / 50)
    (by decide) (by decide) (by decide) (by decide)
    (by rw [hq]; norm_num)
  refine ⟨?_, h.2⟩
  rw [h.1]
  decide

/-- `float("0.14")` evaluated in the rational model. -/
theorem parsePyFloat_sample : parsePyFloat "0.14" = some (7 / 50) := by
  have h : parsePyFloat "0.14"
      = some (((0 : ℕ) : ℚ) + ((14 : ℕ) : ℚ) / (10 : ℚ) ^ 2) := rfl
  rw [h]
  norm_num

/-- The spec's sample parsed record with the counts-per-minute field
replaced by an arbitrary string. -/
def cpmVaried (v : String) : Dict :=
  [("UTC", PyVal.str "17:09:33 06/22/2021"), ("CPS", PyVal.str "0"),
   ("CPM", PyVal.str v), ("uSv/hr", PyVal.str "0.14"),
   ("Mode", PyVal.str "SLOW"), ("status", PyVal.str "online"),
   ("serverMode", PyVal.str "primary")]

/-- Claim C9 counterexample: a record whose counts-per-minute field is the
non-numeric string `abc` — with all other fields valid — IS successfully
converted (`convertData` returns a record, still carrying `CPM = "abc"`),
refuting "a record whose counts-per-minute field is non-numeric does not
produce a MeasurementRecord": `convertData` never examines `CPM`. -/
theorem radmonC9_counter :
    (convertData 0 0 (cpmVaried "abc")).isSome = true ∧
    (convertData 0 0 (cpmVaried "abc")).bind (fun r => lookupV r "CPM")
      = some (PyVal.str "abc") := by
  have h := convertData_eq 0 0 (cpmVaried "abc") "17:09:33 06/22/2021"
    ⟨2021, 6, 22, 17, 9, 33⟩ "SLOW" "0.14" (7 / 50)
    rfl (by decide) rfl rfl parsePyFloat_sample
  rw [h]
  exact ⟨rfl, rfl⟩

/-- Claim C9 (amended): `convertData` fails the whole record when the
timestamp field is present but unparseable, and when the dose-rate field
is present but non-numeric; but the counts fields are never examined —
a record with ANY counts-per-minute string (numeric or not) still
converts successfully when the fields `convertData` does touch are
valid. -/
theorem radmonC9_amended :
    (∀ (tz now : Int) (d : Dict) (utc : String),
      lookupStr d "UTC" = some utc →
      strptimeHMS_MDY utc = none →
      convertData tz now d = none) ∧
    (∀ (tz now : Int) (d : Dict) (utc : String) (t : Tm) (mv uv : String),
      lookupV d "UTC" = some (PyVal.str utc) →
      strptimeHMS_MDY utc = some t →
      lookupV d "Mode" = some (PyVal.str mv) →
      lookupV d "uSv/hr" = some (PyVal.str uv) →
      parsePyFloat uv = none →
      convertData tz now d = none) ∧
    (∀ v : String, (convertData 0 0 (cpmVaried v)).isSome = true) := by
  refine ⟨?_, ?_, ?_⟩
  · intro tz now d utc h1 h2
    rw [convertData]
    simp only [useRadmonTimestamp, if_true, h1, h2]
  · intro tz now d utc t mv uv h1 h2 h3 h4 h5
    rw [convertData]
    simp only [useRadmonTimestamp, if_true, lookupStr, h1, h2]
    rw [convertDataRest_eq tz (timegm t) d mv uv h3 h4, h5]
    rfl
  · intro v
    have h := convertData_eq 0 0 (cpmVaried v) "17:09:33 06/22/2021"
      ⟨2021, 6, 22, 17, 9, 33⟩ "SLOW" "0.14" (7 / 50)
      rfl (by decide) rfl rfl parsePyFloat_sample
    rw [h]
    rfl

/-- A record with a valid device timestamp and mode but a non-numeric
dose-rate string. -/
def badDoseRecord : Dict :=
  [("UTC", PyVal.str "17:09:33 06/22/2021"), ("Mode", PyVal.str "SLOW"),
   ("uSv/hr", PyVal.str "xyz")]

/-- Witness for claim C9: an unparseable timestamp fails conversion, a
non-numeric dose-rate fails conversion, and a non-numeric
counts-per-minute value does not. -/
theorem radmonC9_witness :
    convertData 0 0 [("UTC", PyVal.str "banana")] = none ∧
    convertData 0 0 badDoseRecord = none ∧
    (convertData 0 0 (cpmVaried "not a number")).isSome = true := by
  refine ⟨?_, ?_, radmonC9_amended.2.2 "not a number"⟩
  · exact radmonC9_amended.1 0 0 _ "banana" rfl (by decide)
  · exact radmonC9_amended.2.1 0 0 badDoseRecord "17:09:33 06/22/2021"
      ⟨2021, 6, 22, 17, 9, 33⟩ "SLOW" "xyz" rfl (by decide) rfl rfl rfl

   /-! ### Snapshot blanking on the offline transition (claim C4) -/

/-- Claim C4 counterexample: on the 3rd consecutive failure from an Online
state, the transition fires (`setStatusToOffline` is invoked) and the
snapshot file is REMOVED — afterwards no snapshot record exists at all, so
there is no record with `status = "offline"`, blanked measurement fields
and a current timestamp, contradicting the claimed blanking. -/
theorem radmonC4_counter :
    (setRadmonStatus false ⟨2, true, false, some sampleRecord⟩).2.calledSetOffline
      = true ∧
    (setRadmonStatus false ⟨2, true, false, some sampleRecord⟩).1.outputFile
      = none :=
  ⟨rfl, rfl⟩

/-- Claim C4 (amended): when the Online→Offline transition fires (failure
counter at `_MAX_FAILED_DATA_REQUESTS - 1`, i.e. the N-th consecutive
failure), the snapshot file is deleted — downstream clients observe
absence of the file, not a blanked record — the online flag drops, and
the offline log line is printed exactly if the monitor was online. -/
theorem radmonC4_amended (s : AgentState)
    (h : s.failedUpdateCount = maxFailedDataRequests - 1) :
    (setRadmonStatus false s).2.calledSetOffline = true ∧
    (setRadmonStatus false s).1.outputFile = none ∧
    (setRadmonStatus false s).1.radmonOnline = false ∧
    (setRadmonStatus false s).2.loggedOffline = s.radmonOnline := by
  simp [setRadmonStatus, setStatusToOffline, h]

/-- Witness for claim C4: the amended theorem applied to a concrete state
that is already offline — the file removal still happens, and no offline
log line is printed. -/
theorem radmonC4_witness :
    (setRadmonStatus false ⟨2, false, true, some sampleRecord⟩).2.calledSetOffline
      = true ∧
    (setRadmonStatus false ⟨2, false, true, some sampleRecord⟩).1.outputFile
      = none ∧
    (setRadmonStatus false ⟨2, false, true, some sampleRecord⟩).1.radmonOnline
      = false ∧
    (setRadmonStatus false ⟨2, false, true, some sampleRecord⟩).2.loggedOffline
      = false := by
  have h := radmonC4_amended ⟨2, false, true, some sampleRecord⟩ rfl
  exact ⟨h.1, h.2.1, h.2.2.1, h.2.2.2⟩

   /-! ### Time-series sink adapter (`updateDatabase`) -/

/-- The `(timestamp, counts, dose-rate)` triple interpolated into the
`rrdtool update` command line. -/
structure RrdSubmission where
  elt : PyVal
  cpm : PyVal
  svPerHr : ℚ
deriving DecidableEq, Repr

/-- `updateDatabase(dData)` (radmonAgent.py:334-370): re-parse the
formatted `uSvPerHr` display string with `float` and scale it by `1.0E-06`
to whole Sv units; format the `rrdtool update` command from
`(ELT, CPM, SvPerHr)` and run it.  `rrdErr = none` models a successful
subprocess run.  `some out` models `CalledProcessError`: the handler
prints the failure and then evaluates
`exError.output.find("illegal attempt to update using time")` — but under
the script's declared interpreter (python3) `exError.output` is BYTES, so
`bytes.find` applied to a `str` argument raises a `TypeError` at
radmonAgent.py:361; nothing catches it (`main` has no `try`), the process
dies, and the `remoteDeviceReset` assignment on line 362 is unreachable
dead code.  Every `CalledProcessError` therefore ends in the overall
`none` (uncaught exception / crash), which also models the `KeyError` /
`ValueError` raised before the `try` when `uSvPerHr` is absent or
non-numeric (unreachable after a successful convert). -/
def updateDatabase (s : AgentState) (d : Dict) (rrdErr : Option String) :
    Option (AgentState × Bool × RrdSubmission) :=
  match lookupV d "uSvPerHr" with
  | some (PyVal.str v) =>
      match parsePyFloat v with
      | some q =>
          let svPerHr := q * (1 / 1000000)
          match lookupV d "ELT", lookupV d "CPM" with
          | some elt, some cpm =>
              let sub : RrdSubmission := ⟨elt, cpm, svPerHr⟩
              match rrdErr with
              | none => some (s, true, sub)
              | some _ => none
          | _, _ => none
      | none => none
  | _ => none

/-- Every rrdtool failure kills the agent: the `CalledProcessError`
handler raises an uncaught `TypeError` (`bytes.find` with a `str`
argument, radmonAgent.py:361) before reaching the flag assignment, so
`updateDatabase` never returns `False` and never sets
`remoteDeviceReset`. -/
theorem updateDatabase_err (s : AgentState) (d : Dict) (out : String) :
    updateDatabase s d (some out) = none := by
  rw [updateDatabase]
  repeat' split
  all_goals first
    | rfl
    | simp_all

/-- The fetch reads but never writes the agent state — in particular it
never clears `remoteDeviceReset`. -/
theorem getRadiationData_preserves (s : AgentState) (resp : Option String) :
    (getRadiationData s resp).1 = s := by
  match resp with
  | none => rfl
  | some raw =>
      by_cases h : cleanContent raw = "" <;> simp [getRadiationData, h]

/-- A store rejection reporting the out-of-order-timestamp condition. -/
def orderingError : String :=
  "ERROR: illegal attempt to update using time 1624381773 when last update time is 1624381773"

/-- A converted record as `updateDatabase` consumes it. -/
def c6record : Dict :=
  [("ELT", PyVal.int 1624381773), ("CPM", PyVal.str "26"),
   ("uSvPerHr", PyVal.str "0.14")]

/-- Claim C6 (code bug): the claimed one-shot reset mechanism does not
exist in the program.  Evaluating the code at the failing input — a store
update rejected with the "timestamp out of order" output — the
`CalledProcessError` handler raises an uncaught `TypeError`
(`bytes.find(str)`, radmonAgent.py:361) and the agent dies (`none`), so
`remoteDeviceReset` is never set and no subsequent fetch targets the
reset path; the same holds for every rrdtool failure output.  And even
the consumption half is absent: the fetch never writes the state, so
nothing would ever clear the flag. -/
theorem radmonC6_bug :
    (updateDatabase ⟨0, true, false, none⟩ c6record (some orderingError)
      = none) ∧
    (∀ (s : AgentState) (d : Dict) (out : String),
      updateDatabase s d (some out) = none) ∧
    (∀ (s : AgentState) (resp : Option String),
      (getRadiationData s resp).1 = s) :=
  ⟨rfl, updateDatabase_err, getRadiationData_preserves⟩

/-- Fields other than the six the converter touches are untouched by the
converted-record rebuild. -/
theorem lookupV_converted_other (d : Dict) (elt : Int)
    (dv mval uval : PyVal) (k : String) (h1 : k ≠ "uSvPerHr")
    (h2 : k ≠ "uSv/hr") (h3 : k ≠ "mode") (h4 : k ≠ "Mode")
    (h5 : k ≠ "date") (h6 : k ≠ "ELT") :
    lookupV (dictInsert (dictRemove (dictInsert (dictRemove
      (dictInsert (dictInsert d "ELT" (PyVal.int elt)) "date" dv) "Mode")
      "mode" mval) "uSv/hr") "uSvPerHr" uval) k = lookupV d k := by
  rw [lookupV_insert_ne _ _ _ _ h1, lookupV_remove_ne _ _ _ h2,
    lookupV_insert_ne _ _ _ _ h3, lookupV_remove_ne _ _ _ h4,
    lookupV_insert_ne _ _ _ _ h5, lookupV_insert_ne _ _ _ _ h6]

theorem roundHalfEven_intCast (m : ℤ) : roundHalfEven (m : ℚ) = m := by
  simp only [roundHalfEven, Int.floor_intCast, sub_self]
  norm_num

/-- The spec's sample parsed record with the dose-rate field replaced. -/
def doseVaried (v : String) : Dict :=
  [("UTC", PyVal.str "17:09:33 06/22/2021"), ("CPS", PyVal.str "0"),
   ("CPM", PyVal.str "26"), ("uSv/hr", PyVal.str v),
   ("Mode", PyVal.str "SLOW"), ("status", PyVal.str "online"),
   ("serverMode", PyVal.str "primary")]

theorem parsePyFloat_146 : parsePyFloat "0.146" = some (73 / 500) := by
  have h : parsePyFloat "0.146"
      = some (((0 : ℕ) : ℚ) + ((146 : ℕ) : ℚ) / (10 : ℚ) ^ 3) := rfl
  rw [h]
  norm_num

theorem roundHalfEven_146 : roundHalfEven ((73 : ℚ) / 500 * 100) = 15 := by
  have hq : (73 : ℚ) / 500 * 100 = 73 / 5 := by norm_num
  have hf : ⌊(73 / 5 : ℚ)⌋ = 14 := by
    rw [Int.floor_eq_iff]
    norm_num
  rw [hq]
  simp only [roundHalfEven, hf]
  norm_num

theorem format2f_146 : format2f (73 / 500) = "0.15" := by
  rw [format2f]
  simp only [format2fChars, roundHalfEven_146]
  decide

/-- Claim C8 counterexample: for source dose-rate `0.146` the converted
record's display string is the 2-decimal rounding `"0.15"`, and the value
submitted to the store is `0.15e-6` — NOT the source value scaled by 1e-6,
which would be `0.146e-6`.  The base-unit value is re-derived by parsing
the rounded display string, so "base-unit equals the source dose-rate
scaled by exactly 1e-6" fails whenever the source has more than two
decimals. -/
theorem radmonC8_counter :
    ((convertData 0 0 (doseVaried "0.146")).bind
      (fun r => lookupStr r "uSvPerHr")) = some "0.15" ∧
    ((convertData 0 0 (doseVaried "0.146")).bind (fun r =>
        (updateDatabase ⟨0, true, false, none⟩ r none).map
          (fun u => u.2.2.svPerHr))) = some (3 / 20000000) ∧
    (3 / 20000000 : ℚ) ≠ (146 / 1000 : ℚ) * (1 / 1000000) := by
  have hconv := convertData_eq 0 0 (doseVaried "0.146") "17:09:33 06/22/2021"
    ⟨2021, 6, 22, 17, 9, 33⟩ "SLOW" "0.146" (73 / 500)
    rfl (by decide) rfl rfl parsePyFloat_146
  have h15 : parsePyFloat "0.15" = some (3 / 20) := by
    have h : parsePyFloat "0.15"
        = some (((0 : ℕ) : ℚ) + ((15 : ℕ) : ℚ) / (10 : ℚ) ^ 2) := rfl
    rw [h]
    norm_num
  refine ⟨?_, ?_, by norm_num⟩
  · rw [hconv, Option.some_bind, format2f_146, lookupStr, lookupV_insert_self]
  · rw [hconv, Option.some_bind, format2f_146, updateDatabase]
    have hu : lookupV (dictInsert (dictRemove (dictInsert (dictRemove
        (dictInsert (dictInsert (doseVaried "0.146") "ELT"
          (PyVal.int (timegm ⟨2021, 6, 22, 17, 9, 33⟩))) "date"
          (PyVal.str (formatLocalDate 0 (timegm ⟨2021, 6, 22, 17, 9, 33⟩))))
          "Mode") "mode" (PyVal.str (pyLower "SLOW"))) "uSv/hr")
        "uSvPerHr" (PyVal.str "0.15")) "uSvPerHr"
        = some (PyVal.str "0.15") := lookupV_insert_self _ _ _
    have hELT := lookupV_converted_ELT (doseVaried "0.146")
      (timegm ⟨2021, 6, 22, 17, 9, 33⟩)
      (PyVal.str (formatLocalDate 0 (timegm ⟨2021, 6, 22, 17, 9, 33⟩)))
      (PyVal.str (pyLower "SLOW")) (PyVal.str "0.15")
    have hCPM : lookupV (dictInsert (dictRemove (dictInsert (dictRemove
        (dictInsert (dictInsert (doseVaried "0.146") "ELT"
          (PyVal.int (timegm ⟨2021, 6, 22, 17, 9, 33⟩))) "date"
          (PyVal.str (formatLocalDate 0 (timegm ⟨2021, 6, 22, 17, 9, 33⟩))))
          "Mode") "mode" (PyVal.str (pyLower "SLOW"))) "uSv/hr")
        "uSvPerHr" (PyVal.str "0.15")) "CPM" = some (PyVal.str "26") := by
      rw [lookupV_converted_other _ _ _ _ _ _ (by decide) (by decide)
        (by decide) (by decide) (by decide) (by decide)]
      rfl
    simp only [hu, hELT, hCPM, h15]
    norm_num

/-- Claim C8 (amended): the converted record's display string `uSvPerHr`
is the 2-decimal formatting of the single source field `uSv/hr`, and the
base-unit value submitted to the store is obtained by re-parsing that
display string and scaling by 1e-6 — so it equals the ROUNDED-to-
hundredths source value times 1e-6, which coincides with the source value
times exactly 1e-6 precisely when the source has at most two decimals
(e.g. `0.14`). -/
theorem radmonC8_amended (tz now : Int) (d : Dict) (utc : String) (t : Tm)
    (mv uv : String) (q : ℚ) (s : AgentState) (cpmv : PyVal)
    (h1 : lookupV d "UTC" = some (PyVal.str utc))
    (h2 : strptimeHMS_MDY utc = some t)
    (h3 : lookupV d "Mode" = some (PyVal.str mv))
    (h4 : lookupV d "uSv/hr" = some (PyVal.str uv))
    (h5 : parsePyFloat uv = some q)
    (h6 : 0 ≤ q)
    (h7 : lookupV d "CPM" = some cpmv) :
    ∃ d', convertData tz now d = some d' ∧
      lookupStr d' "uSvPerHr" = some (format2f q) ∧
      (updateDatabase s d' none).map (fun u => u.2.2.svPerHr)
        = some (((roundHalfEven (q * 100) : ℚ) / 100) * (1 / 1000000)) ∧
      ((q * 100).den = 1 →
        ((roundHalfEven (q * 100) : ℚ) / 100) * (1 / 1000000)
          = q * (1 / 1000000)) := by
  refine ⟨_, convertData_eq tz now d utc t mv uv q h1 h2 h3 h4 h5,
    ?_, ?_, ?_⟩
  · rw [lookupStr, lookupV_insert_self]
  · have hu := lookupV_insert_self (dictRemove (dictInsert (dictRemove
      (dictInsert (dictInsert d "ELT" (PyVal.int (timegm t)))
        "date" (PyVal.str (formatLocalDate tz (timegm t)))) "Mode")
      "mode" (PyVal.str (pyLower mv))) "uSv/hr")
      "uSvPerHr" (PyVal.str (format2f q))
    have hELT := lookupV_converted_ELT d (timegm t)
      (PyVal.str (formatLocalDate tz (timegm t)))
      (PyVal.str (pyLower mv)) (PyVal.str (format2f q))
    have hCPM : lookupV (dictInsert (dictRemove (dictInsert (dictRemove
        (dictInsert (dictInsert d "ELT" (PyVal.int (timegm t)))
          "date" (PyVal.str (formatLocalDate tz (timegm t)))) "Mode")
        "mode" (PyVal.str (pyLower mv))) "uSv/hr")
        "uSvPerHr" (PyVal.str (format2f q))) "CPM" = some cpmv := by
      rw [lookupV_converted_other _ _ _ _ _ _ (by decide) (by decide)
        (by decide) (by decide) (by decide) (by decide), h7]
    rw [updateDatabase]
    simp only [hu, hELT, hCPM, parsePyFloat_format2f q h6]
    rfl
  · intro hden
    have hm : (((q * 100).num : ℤ) : ℚ) = q * 100 := by
      have h := Rat.num_div_den (q * 100)
      rw [hden] at h
      simpa using h
    have hr : roundHalfEven (q * 100) = (q * 100).num := by
      conv_lhs => rw [← hm]
      exact roundHalfEven_intCast _
    rw [hr, hm]
    ring

/-- Witness for claim C8: the spec's own example — source dose-rate
`"0.14"` — where the display string is `format2f (7/50)` and, the source
having exactly two decimals, the submitted base-unit value equals the
source times exactly 1e-6. -/
theorem radmonC8_witness :
    ∃ d', convertData 0 0 (doseVaried "0.14") = some d' ∧
      lookupStr d' "uSvPerHr" = some (format2f (7 / 50)) ∧
      (updateDatabase ⟨0, true, false, none⟩ d' none).map
          (fun u => u.2.2.svPerHr)
        = some (((roundHalfEven ((7 / 50 : ℚ) * 100) : ℚ) / 100)
            * (1 / 1000000)) ∧
      (((7 / 50 : ℚ) * 100).den = 1 →
        ((roundHalfEven ((7 / 50 : ℚ) * 100) : ℚ) / 100) * (1 / 1000000)
          = (7 / 50 : ℚ) * (1 / 1000000)) :=
  radmonC8_amended 0 0 (doseVaried "0.14") "17:09:33 06/22/2021"
    ⟨2021, 6, 22, 17, 9, 33⟩ "SLOW" "0.14" (7 / 50) ⟨0, true, false, none⟩
    (PyVal.str "26") rfl (by decide) rfl rfl parsePyFloat_sample
    (by norm_num) rfl

   /-! ### Snapshot writer and one pass of the control loop -/

/-- `writeOutputFile(dData)` (radmonAgent.py:271-303): serialize the record
and overwrite the snapshot file (the file content is modelled by the
dictionary itself); `wOk = false` models an I/O failure — the exception
path returns `False` and the previous file state is kept. -/
def writeOutputFile (s : AgentState) (wOk : Bool) (d : Dict) :
    AgentState × Bool :=
  if wOk then ({ s with outputFile := some d }, true) else (s, false)

/-- The external environment of one data-request pass of the main loop. -/
structure CycleEnv where
  /-- the HTTP response to this cycle's single request (`none` = error) -/
  httpResp : Option String
  /-- outcome of the snapshot-file write, should one happen -/
  writeOk : Bool
  /-- whether `currentTime - lastDatabaseUpdateTime` exceeds the interval -/
  dbDue : Bool
  /-- rrdtool outcome if invoked (`none` = success, `some out` = error) -/
  rrdErr : Option String
  /-- host timezone offset in seconds from UTC -/
  tz : Int
  /-- server wall clock -/
  now : Int
deriving Repr

/-- Observable summary of what one pass did. -/
structure CycleTrace where
  /-- fetch, parse and convert all succeeded -/
  pipelineOk : Bool
  /-- `updateDatabase` was invoked -/
  dbAttempted : Bool
  /-- the `result` value finally handed to `setRadmonStatus` -/
  trackerInput : Bool
  /-- the availability tracker's logged events -/
  events : StatusEvents
deriving Repr

/-- The cascading `result = getRadiationData/parseDataString/convertData`
checks of the main loop (radmonAgent.py:542-550), yielding the converted
record when all three stages succeed. -/
def cycleData (env : CycleEnv) (s0 : AgentState) : Option Dict :=
  match (getRadiationData s0 env.httpResp).2.success,
      (getRadiationData s0 env.httpResp).2.content with
  | true, some content =>
      match parseDataString content with
      | some pd => convertData env.tz env.now pd
      | none => none
  | _, _ => none

/-- One data-request pass of the main loop (radmonAgent.py:537-565): run
the fetch→parse→convert pipeline; on success write the snapshot — the
write's return value is DISCARDED — and, if the database interval has
elapsed, run `updateDatabase`, overwriting `result`; finally hand `result`
to `setRadmonStatus`.  The overall `none` models an uncaught exception
(in practice unreachable: `updateDatabase` runs only on converted
records). -/
def runCycle (env : CycleEnv) (s0 : AgentState) :
    Option (AgentState × CycleTrace) :=
  let s1 := (getRadiationData s0 env.httpResp).1
  match cycleData env s0 with
  | some d =>
      let w := writeOutputFile s1 env.writeOk d
      if env.dbDue then
        match updateDatabase w.1 d env.rrdErr with
        | some r =>
            some ((setRadmonStatus r.2.1 r.1).1,
              ⟨true, true, r.2.1, (setRadmonStatus r.2.1 r.1).2⟩)
        | none => none
      else
        some ((setRadmonStatus true w.1).1,
          ⟨true, false, true, (setRadmonStatus true w.1).2⟩)
  | none =>
      some ((setRadmonStatus false s1).1,
        ⟨false, false, false, (setRadmonStatus false s1).2⟩)

/-- Whenever `updateDatabase` returns at all (rather than crashing the
agent), the state is untouched and it reports success — the only
surviving path is a clean rrdtool run. -/
theorem updateDatabase_some (s : AgentState) (d : Dict) (e : Option String)
    (r : AgentState × Bool × RrdSubmission)
    (h : updateDatabase s d e = some r) : r.1 = s ∧ r.2.1 = true := by
  rw [updateDatabase] at h
  repeat' split at h
  all_goals try simp_all
  all_goals (rw [← h]; exact ⟨rfl, rfl⟩)

/-- A successful `updateDatabase` call with a clean rrdtool run leaves the
state untouched and reports success. -/
theorem updateDatabase_none_ok (s : AgentState) (d : Dict)
    (r : AgentState × Bool × RrdSubmission)
    (h : updateDatabase s d none = some r) : r.1 = s ∧ r.2.1 = true := by
  rw [updateDatabase] at h
  repeat' split at h
  all_goals try simp_all
  all_goals (rw [← h]; exact ⟨rfl, rfl⟩)

/-- `updateDatabase` applied to a converted record: the dose submitted is
the rounded display value scaled by 1e-6, and the outcome depends only on
the rrdtool result — success on a clean run, a crash of the agent on any
rrdtool error. -/
theorem updateDatabase_on_build (s : AgentState) (d : Dict) (elt : Int)
    (dv mval : PyVal) (q : ℚ) (h6 : 0 ≤ q) (cpmv : PyVal)
    (h7 : lookupV d "CPM" = some cpmv) (rrdErr : Option String) :
    updateDatabase s (dictInsert (dictRemove (dictInsert (dictRemove
      (dictInsert (dictInsert d "ELT" (PyVal.int elt)) "date" dv) "Mode")
      "mode" mval) "uSv/hr") "uSvPerHr" (PyVal.str (format2f q))) rrdErr
      = (match rrdErr with
         | none => some (s, true, ⟨PyVal.int elt, cpmv,
             ((roundHalfEven (q * 100) : ℚ) / 100) * (1 / 1000000)⟩)
         | some _ => none) := by
  have hCPM : lookupV (dictInsert (dictRemove (dictInsert (dictRemove
      (dictInsert (dictInsert d "ELT" (PyVal.int elt)) "date" dv) "Mode")
      "mode" mval) "uSv/hr") "uSvPerHr" (PyVal.str (format2f q))) "CPM"
      = some cpmv := by
    rw [lookupV_converted_other _ _ _ _ _ _ (by decide) (by decide)
      (by decide) (by decide) (by decide) (by decide), h7]
  rw [updateDatabase]
  simp only [lookupV_insert_self, parsePyFloat_format2f q h6,
    lookupV_converted_ELT, hCPM]

/-- The device payload of the spec's end-to-end scenario. -/
def samplePayload : String :=
  "$,UTC=17:09:33 06/22/2021,CPS=0,CPM=26,uSv/hr=0.14,Mode=SLOW,#"

/-- A cycle environment in which the pipeline succeeds, the database
update is due, and rrdtool fails for a reason unrelated to timestamp
ordering. -/
def c7env : CycleEnv :=
  ⟨some samplePayload, true, true, some "rrdtool: mmap failed", 0, 0⟩

/-- Claim C7 counterexample: starting Offline, a cycle in which fetch,
parse and convert ALL succeed (the pipeline result is a converted record)
but the due database update fails does NOT end with the tracker observing
a success: the cycle crashes the agent (`runCycle = none`, the uncaught
`TypeError` in `updateDatabase`'s error handler), `setRadmonStatus` never
runs, and the Offline→Online transition does not fire — refuting
"the tracker observes a successful cycle independently of whether any
subsequent step of that cycle fails". -/
theorem radmonC7_counter :
    (cycleData c7env ⟨0, false, false, none⟩).isSome = true ∧
    runCycle c7env ⟨0, false, false, none⟩ = none := by
  have hcd : cycleData c7env ⟨0, false, false, none⟩
      = convertData 0 0 sampleRecord := rfl
  have hconv := convertData_eq 0 0 sampleRecord "17:09:33 06/22/2021"
    ⟨2021, 6, 22, 17, 9, 33⟩ "SLOW" "0.14" (7 / 50) rfl (by decide) rfl rfl
    parsePyFloat_sample
  constructor
  · rw [hcd, hconv]
    rfl
  · rw [runCycle, hcd, hconv]
    simp only [writeOutputFile]
    rw [updateDatabase_on_build _ sampleRecord _ _ _ (7 / 50) (by norm_num)
      (PyVal.str "26") rfl c7env.rrdErr]
    rfl

/-- Claim C7 (amended): in every cycle the agent survives, the tracker
observes success exactly when fetch+parse+convert all succeeded, and then
the state is immediately Online with the counter reset (so from Offline
the transition fires the instant the pipeline succeeds), regardless of the
snapshot write outcome.  The independence from the store update fails
differently than claimed, though: a cycle whose due database update errors
never reaches the tracker at all — the agent crashes (`runCycle = none`)
inside `updateDatabase`'s error handler. -/
theorem radmonC7_amended :
    (∀ (env : CycleEnv) (s s' : AgentState) (tr : CycleTrace),
      runCycle env s = some (s', tr) →
      tr.trackerInput = tr.pipelineOk ∧
      (tr.trackerInput = true →
        s'.radmonOnline = true ∧ s'.failedUpdateCount = 0)) ∧
    (∀ (env : CycleEnv) (s : AgentState) (d : Dict) (out : String),
      cycleData env s = some d →
      env.dbDue = true →
      env.rrdErr = some out →
      runCycle env s = none) := by
  constructor
  · intro env s s' tr h
    rw [runCycle] at h
    cases hcd : cycleData env s with
    | none =>
      rw [hcd] at h
      injection h with h2
      injection h2 with ha hb
      subst ha
      subst hb
      constructor
      · rfl
      · intro htr
        exact absurd htr (by simp)
    | some d =>
      rw [hcd] at h
      by_cases hdb : env.dbDue = true
      · simp only [hdb, if_true] at h
        cases hup : updateDatabase
            (writeOutputFile (getRadiationData s env.httpResp).1
              env.writeOk d).1 d env.rrdErr with
        | none => rw [hup] at h; exact absurd h (by simp)
        | some r =>
          rw [hup] at h
          injection h with h2
          injection h2 with ha hb
          subst ha
          subst hb
          have hok := (updateDatabase_some _ _ _ _ hup).2
          refine ⟨hok, ?_⟩
          intro htr
          simp only [CycleTrace.trackerInput] at htr
          rw [htr]
          simp [setRadmonStatus]
      · rw [Bool.not_eq_true] at hdb
        simp only [hdb, Bool.false_eq_true, if_false] at h
        injection h with h2
        injection h2 with ha hb
        subst ha
        subst hb
        refine ⟨rfl, ?_⟩
        intro htr
        simp [setRadmonStatus]
  · intro env s d out hcd hdb hre
    rw [runCycle, hcd]
    simp only [hdb, if_true, hre, updateDatabase_err]

/-- Witness for claim C7: a fully successful cycle (pipeline succeeds,
database due and succeeding) from the Offline start state flips the state
to Online with the counter reset and the tracker input equal to the
pipeline flag; and a second environment with a due-but-failing database
update crashes the cycle. -/
theorem radmonC7_witness :
    (∃ s' tr, runCycle ⟨some samplePayload, true, true, none, 0, 0⟩
        ⟨0, false, false, none⟩ = some (s', tr) ∧
      tr.trackerInput = tr.pipelineOk ∧
      (tr.trackerInput = true →
        s'.radmonOnline = true ∧ s'.failedUpdateCount = 0)) ∧
    runCycle ⟨some samplePayload, false, true, some "disk full", 0, 0⟩
      ⟨0, false, false, none⟩ = none := by
  have hcd : cycleData ⟨some samplePayload, true, true, none, 0, 0⟩
      ⟨0, false, false, none⟩ = convertData 0 0 sampleRecord := rfl
  have hconv := convertData_eq 0 0 sampleRecord "17:09:33 06/22/2021"
    ⟨2021, 6, 22, 17, 9, 33⟩ "SLOW" "0.14" (7 / 50) rfl (by decide) rfl rfl
    parsePyFloat_sample
  have hrun : runCycle ⟨some samplePayload, true, true, none, 0, 0⟩
      ⟨0, false, false, none⟩ = some
        ((setRadmonStatus true ⟨0, false, false, some (dictInsert (dictRemove
          (dictInsert (dictRemove (dictInsert (dictInsert sampleRecord "ELT"
            (PyVal.int (timegm ⟨2021, 6, 22, 17, 9, 33⟩))) "date"
            (PyVal.str (formatLocalDate 0 (timegm ⟨2021, 6, 22, 17, 9, 33⟩))))
            "Mode") "mode" (PyVal.str (pyLower "SLOW"))) "uSv/hr")
            "uSvPerHr" (PyVal.str (format2f (7 / 50))))⟩).1,
          ⟨true, true, true, (setRadmonStatus true ⟨0, false, false,
            some (dictInsert (dictRemove (dictInsert (dictRemove
              (dictInsert (dictInsert sampleRecord "ELT"
              (PyVal.int (timegm ⟨2021, 6, 22, 17, 9, 33⟩))) "date"
              (PyVal.str (formatLocalDate 0
                (timegm ⟨2021, 6, 22, 17, 9, 33⟩)))) "Mode") "mode"
              (PyVal.str (pyLower "SLOW"))) "uSv/hr") "uSvPerHr"
              (PyVal.str (format2f (7 / 50))))⟩).2⟩) := by
    rw [runCycle, hcd, hconv]
    simp only [writeOutputFile]
    rw [updateDatabase_on_build _ sampleRecord _ _ _ (7 / 50) (by norm_num)
      (PyVal.str "26") rfl none]
    rfl
  obtain ⟨hc1, hc2⟩ := radmonC7_amended.1 _ _ _ _ hrun
  refine ⟨⟨_, _, hrun, hc1, hc2⟩, ?_⟩
  exact radmonC7_amended.2
    ⟨some samplePayload, false, true, some "disk full", 0, 0⟩
    ⟨0, false, false, none⟩ _ "disk full"
    (by rw [show cycleData
          ⟨some samplePayload, false, true, some "disk full", 0, 0⟩
          ⟨0, false, false, none⟩ = convertData 0 0 sampleRecord from rfl,
        hconv])
    rfl rfl

/-- `updateDatabase` reads and writes only the `remoteDeviceReset` part of
the state: an `outputFile` override commutes past it. -/
theorem updateDatabase_outputFile (s : AgentState) (o : Option Dict)
    (d : Dict) (e : Option String) :
    updateDatabase { s with outputFile := o } d e
      = (updateDatabase s d e).map
          (fun r => ({ r.1 with outputFile := o }, r.2)) := by
  rw [updateDatabase, updateDatabase]
  repeat' split
  all_goals rfl

/-- The availability outcome and the events of `setRadmonStatus` are
unchanged by an `outputFile` override on the incoming state. -/
theorem setRadmonStatus_outputFile (b : Bool) (s : AgentState)
    (o : Option Dict) :
    ((setRadmonStatus b { s with outputFile := o }).1.failedUpdateCount
      = (setRadmonStatus b s).1.failedUpdateCount) ∧
    ((setRadmonStatus b { s with outputFile := o }).1.radmonOnline
      = (setRadmonStatus b s).1.radmonOnline) ∧
    ((setRadmonStatus b { s with outputFile := o }).1.remoteDeviceReset
      = (setRadmonStatus b s).1.remoteDeviceReset) ∧
    ((setRadmonStatus b { s with outputFile := o }).2
      = (setRadmonStatus b s).2) := by
  cases b <;>
    by_cases h : s.failedUpdateCount = maxFailedDataRequests - 1 <;>
    simp [setRadmonStatus, setStatusToOffline, h]

/-- The availability-relevant fields of the agent state. -/
def availOf (s : AgentState) : Nat × Bool × Bool :=
  (s.failedUpdateCount, s.radmonOnline, s.remoteDeviceReset)

/-- Claim C10: the snapshot write outcome never influences the rest of the
cycle.  (1) Frame property: for every environment and state, running the
cycle with a failing snapshot write yields the same availability fields,
the same trace (pipeline flag, database attempt, tracker input, logged
events) as running it with a succeeding write — only the file content can
differ.  (2) In a cycle whose pipeline succeeds but whose snapshot write
fails, as long as the database step does not independently fail, the
tracker still records a success (counter reset, state Online), the
database update is attempted exactly on its cadence, and the snapshot
file keeps its previous content. -/
theorem radmonC10_frame :
    (∀ (env : CycleEnv) (s : AgentState),
      (runCycle { env with writeOk := false } s).map
          (fun r => (availOf r.1, r.2))
        = (runCycle { env with writeOk := true } s).map
          (fun r => (availOf r.1, r.2))) ∧
    (∀ (env : CycleEnv) (s s' : AgentState) (tr : CycleTrace),
      env.writeOk = false →
      runCycle env s = some (s', tr) →
      tr.pipelineOk = true →
      (env.dbDue = true → env.rrdErr = none) →
      s'.failedUpdateCount = 0 ∧ s'.radmonOnline = true ∧
        tr.dbAttempted = env.dbDue ∧ s'.outputFile = s.outputFile) := by
  constructor
  · intro env s
    have hcd : cycleData { env with writeOk := false } s
        = cycleData { env with writeOk := true } s := rfl
    rw [runCycle, runCycle, hcd]
    cases hv : cycleData { env with writeOk := true } s with
    | none => rfl
    | some d =>
      dsimp only
      simp only [writeOutputFile, Bool.false_eq_true, if_false,
        eq_self_iff_true, if_true]
      try dsimp only
      by_cases hdb : env.dbDue = true
      · simp only [hdb, eq_self_iff_true, if_true]
        conv_rhs => rw [updateDatabase_outputFile]
        cases hup : updateDatabase (getRadiationData s env.httpResp).1 d
            env.rrdErr with
        | none => rfl
        | some r =>
          have hs := setRadmonStatus_outputFile r.2.1 r.1 (some d)
          simp [availOf, hs.1, hs.2.1, hs.2.2.1, hs.2.2.2]
      · rw [Bool.not_eq_true] at hdb
        simp only [hdb, Bool.false_eq_true, if_false]
        try dsimp only
        have hs := setRadmonStatus_outputFile true
          (getRadiationData s env.httpResp).1 (some d)
        simp [availOf, hs.1, hs.2.1, hs.2.2.1, hs.2.2.2]
  · intro env s s' tr hw h hpipe hdbimp
    rw [runCycle] at h
    cases hcd : cycleData env s with
    | none =>
      rw [hcd] at h
      injection h with h2
      injection h2 with ha hb
      rw [← hb] at hpipe
      exact absurd hpipe (by simp)
    | some d =>
      rw [hcd] at h
      dsimp only at h
      rw [hw] at h
      simp only [writeOutputFile, Bool.false_eq_true, if_false] at h
      rw [getRadiationData_preserves] at h
      by_cases hdb : env.dbDue = true
      · have hre : env.rrdErr = none := hdbimp hdb
        simp only [hdb, if_true, hre] at h
        cases hup : updateDatabase s d none with
        | none => rw [hup] at h; exact absurd h (by simp)
        | some r =>
          rw [hup] at h
          obtain ⟨hr1, hr2⟩ := updateDatabase_none_ok _ _ _ hup
          injection h with h2
          injection h2 with ha hb
          subst ha
          subst hb
          rw [hr1, hr2]
          simp [setRadmonStatus, hdb]
      · rw [Bool.not_eq_true] at hdb
        simp only [hdb, Bool.false_eq_true, if_false] at h
        injection h with h2
        injection h2 with ha hb
        subst ha
        subst hb
        simp [setRadmonStatus, hdb]

/-- Witness for claim C10: the concrete scenario — pipeline succeeds,
snapshot write fails, database due and succeeding — still resets the
counter, goes Online, attempts the database update, and leaves the
(absent) snapshot file absent. -/
theorem radmonC10_witness :
    ∃ s' tr, runCycle ⟨some samplePayload, false, true, none, 0, 0⟩
        ⟨0, false, false, none⟩ = some (s', tr) ∧
      (s'.failedUpdateCount = 0 ∧ s'.radmonOnline = true ∧
        tr.dbAttempted = true ∧ s'.outputFile = none) := by
  have hcd : cycleData ⟨some samplePayload, false, true, none, 0, 0⟩
      ⟨0, false, false, none⟩ = convertData 0 0 sampleRecord := rfl
  have hconv := convertData_eq 0 0 sampleRecord "17:09:33 06/22/2021"
    ⟨2021, 6, 22, 17, 9, 33⟩ "SLOW" "0.14" (7 / 50) rfl (by decide) rfl rfl
    parsePyFloat_sample
  have hrun : runCycle ⟨some samplePayload, false, true, none, 0, 0⟩
      ⟨0, false, false, none⟩ = some
        ((setRadmonStatus true ⟨0, false, false, none⟩).1,
          ⟨true, true, true,
            (setRadmonStatus true ⟨0, false, false, none⟩).2⟩) := by
    rw [runCycle, hcd, hconv]
    simp only [writeOutputFile]
    rw [updateDatabase_on_build _ sampleRecord _ _ _ (7 / 50) (by norm_num)
      (PyVal.str "26") rfl none]
    rfl
  have h := radmonC10_frame.2 ⟨some samplePayload, false, true, none, 0, 0⟩
    ⟨0, false, false, none⟩ _ _ rfl hrun rfl (fun _ => rfl)
  exact ⟨_, _, hrun, h.1, h.2.1, h.2.2.1, h.2.2.2⟩
